import Mathlib

/-!
Verification of the OptiX BVH packer (`intern/cycles/bvh/bvh_optix.cpp`).

The development shallowly embeds the packing routines of `BVHOptiX`:
`pack_blas`, `pack_tlas`, `pack_instance`, `copy_to_device` and the
`PackedBVH` arrays they operate on.  C++ `int` values are modelled as `Int`
(signed overflow is undefined behaviour, so unbounded integers are faithful),
C++ `uint` values as `Nat` with explicit reduction modulo `2 ^ 32` at the
points where wrap-around is defined behaviour (the `-1` sentinel stored into
the unsigned `prim_tri_index` array, and unsigned additions).
-/

set_option maxHeartbeats 1000000
set_option maxRecDepth 4000

namespace BvhOptix

/-- Modelled from the spec: the primitive-kind tag constants come from the
Cycles kernel header, which is not under `src/`.  The spec describes the tags
as "triangle, motion-triangle, curve-ribbon, curve-thick, motion variants",
each a distinct bit so that masks such as the all-curves mask can be formed;
the claims depend only on the tags being distinct single bits below the
segment-shift position. -/
def PRIMITIVE_TRIANGLE : Nat := 1

/-- Modelled from the spec: motion-blur triangle tag (distinct bit). -/
def PRIMITIVE_MOTION_TRIANGLE : Nat := 2

/-- Modelled from the spec: thick-curve segment tag (distinct bit). -/
def PRIMITIVE_CURVE_THICK : Nat := 4

/-- Modelled from the spec: motion-blur thick-curve segment tag. -/
def PRIMITIVE_MOTION_CURVE_THICK : Nat := 8

/-- Modelled from the spec: ribbon-curve segment tag (distinct bit). -/
def PRIMITIVE_CURVE_RIBBON : Nat := 16

/-- Modelled from the spec: motion-blur ribbon-curve segment tag. -/
def PRIMITIVE_MOTION_CURVE_RIBBON : Nat := 32

/-- Modelled from the spec: number of primitive tag bits; a curve segment's
local index is packed into the tag above these bits. -/
def PRIMITIVE_NUM_TOTAL : Nat := 7

/-- Modelled from the spec: mask matching every curve tag (motion or not,
ribbon or thick); `pack_instance` tests `prim_type & PRIMITIVE_ALL_CURVE`. -/
def PRIMITIVE_ALL_CURVE : Nat :=
  PRIMITIVE_CURVE_THICK ||| PRIMITIVE_MOTION_CURVE_THICK |||
    PRIMITIVE_CURVE_RIBBON ||| PRIMITIVE_MOTION_CURVE_RIBBON

/-- Modelled from the spec: combine a curve base tag with the segment's local
index within its curve, `(segment << PRIMITIVE_NUM_TOTAL) | type`. -/
def PRIMITIVE_PACK_SEGMENT (ty k : Nat) : Nat :=
  (k <<< PRIMITIVE_NUM_TOTAL) ||| ty

/-- Value of a C++ `uint` holding `-1`: the sentinel written into
`prim_tri_index` for curve slots. -/
def uintMinusOne : Nat := 2 ^ 32 - 1

/-- Modulus of C++ `uint` arithmetic. -/
def uintMod : Nat := 2 ^ 32

/-- Payload of a Cycles `float4` triangle-vertex entry.  Vertex data is only
ever moved verbatim by this core (never computed on), so the carrier is the
raw 128-bit payload. -/
structure Float4 where
  bits : Nat
deriving DecidableEq

/-- The `PackedBVH` arrays (`pack` member of a BVH): primitive type tags,
primitive indices, owning-object indices, visibility masks, triangle-vertex
indices and triangle-vertex positions. -/
structure PackedBVH where
  prim_type : List Nat
  prim_index : List Int
  prim_object : List Int
  prim_visibility : List Nat
  prim_tri_index : List Nat
  prim_tri_verts : List Float4
deriving DecidableEq

/-- The empty packed representation. -/
def PackedBVH.empty : PackedBVH :=
  ⟨[], [], [], [], [], []⟩

/-- Geometry kind together with the per-kind data `pack_blas` reads:
for hair the list of per-curve segment counts (`Hair::Curve::num_segments`)
and the curve-shape flag (`curve_shape == CURVE_RIBBON`); for mesh and
volume the triangle count (`Mesh::num_triangles`). -/
inductive GeomData where
  | hair (curves : List Nat) (shapeRibbon : Bool)
  | mesh (numTriangles : Nat)
  | volume (numTriangles : Nat)
deriving DecidableEq

/-- One geometry as seen by the packer: its kind data, attribute queries
(`get_use_motion_blur`, `attributes.find(ATTR_STD_MOTION_VERTEX_POSITION)`),
dirty flags, instancing flag, the externally assigned global primitive
offset (`prim_offset`), its bottom-level pack (`geom->bvh->pack`) and the
`device_verts_pointer` field written by `pack_tlas`. -/
structure Geometry where
  gid : Nat
  data : GeomData
  useMotionBlur : Bool
  hasMotionAttr : Bool
  isModified : Bool
  isInstanced : Bool
  trianglesModified : Bool
  primOffset : Int
  bvhPack : PackedBVH
  deviceVertsPointer : Nat
deriving DecidableEq

/-- Corresponds to `Geometry::is_mesh()`: true exactly for the MESH kind
(volumes and hair answer false, hence "default to true for volumes and
curves" in `pack_instance`). -/
def Geometry.is_mesh (g : Geometry) : Bool :=
  match g.data with
  | GeomData.mesh _ => true
  | _ => false

/-- One scene object: settable visibility field, tracing-visibility query,
modified flags, device index and the geometry it references (by id). -/
structure Object where
  visibility : Nat
  visibilityForTracing : Nat
  visibilityIsModified : Bool
  shadowCatcherIsModified : Bool
  deviceIndex : Int
  geomId : Nat
deriving DecidableEq

/-- Append one slot to the type/index/object arrays: one
`push_back_reserved` triple of the hair loop in `pack_blas`. -/
def pushSlot (p : PackedBVH) (t : Nat) (pi po : Int) : PackedBVH :=
  { p with
    prim_type := p.prim_type ++ [t]
    prim_index := p.prim_index ++ [pi]
    prim_object := p.prim_object ++ [po] }

/-- Inner loop of the hair branch of `pack_blas`: for each segment `k` of
curve `j` push the packed tag, the owning curve index and object index 0. -/
def blasHairSegs (ty j : Nat) (nseg : Nat) (p : PackedBVH) : PackedBVH :=
  (List.range nseg).foldl
    (fun q k => pushSlot q (PRIMITIVE_PACK_SEGMENT ty k) (Int.ofNat j) 0) p

/-- Outer loop of the hair branch of `pack_blas`: iterate the curves in
order, `j` being the current curve index. -/
def blasHairCurves (ty : Nat) : Nat → List Nat → PackedBVH → PackedBVH
  | _, [], p => p
  | j, nseg :: rest, p => blasHairCurves ty (j + 1) rest (blasHairSegs ty j nseg p)

/-- Base curve tag selection in `pack_blas`: motion variants when motion blur
is enabled and the motion vertex attribute is present, ribbon versus thick by
the curve shape. -/
def hairBaseType (useMotionBlur hasMotionAttr shapeRibbon : Bool) : Nat :=
  if useMotionBlur && hasMotionAttr then
    (if shapeRibbon then PRIMITIVE_MOTION_CURVE_RIBBON else PRIMITIVE_MOTION_CURVE_THICK)
  else
    (if shapeRibbon then PRIMITIVE_CURVE_RIBBON else PRIMITIVE_CURVE_THICK)

/-- Cycles `array<T>::resize(n)`: the size becomes `n`, existing contents are
kept up to `min n old`, grown entries are uninitialized (modelled by the
`fill` value). -/
def resizeL {α : Type} (l : List α) (n : Nat) (fill : α) : List α :=
  l.take n ++ List.replicate (n - l.length) fill

/-- Mesh/volume loops of `pack_blas`: after resizing to the triangle count,
`pack_prim_type[k] = type` and `pack_prim_index[k] = k` for every `k`. -/
def fillRange {α : Type} (f : Nat → α) (n : Nat) (l : List α) : List α :=
  (List.range n).foldl (fun acc k => acc.set k (f k)) l

/-- Type/index phase of `pack_blas` (the branch on `geometry_type` before the
shared `pack_primitives` call). -/
def blasTypeIndex (geom : Geometry) (p : PackedBVH) : PackedBVH :=
  match geom.data with
  | GeomData.hair curves shapeRibbon =>
    if 0 < curves.length then
      blasHairCurves (hairBaseType geom.useMotionBlur geom.hasMotionAttr shapeRibbon)
        0 curves p
    else p
  | GeomData.mesh n =>
    if 0 < n then
      { p with
        prim_type :=
          fillRange
            (fun _ =>
              if geom.useMotionBlur && geom.hasMotionAttr then PRIMITIVE_MOTION_TRIANGLE
              else PRIMITIVE_TRIANGLE)
            n (resizeL p.prim_type n 0)
        prim_index := fillRange (fun k => Int.ofNat k) n (resizeL p.prim_index n 0) }
    else p
  | GeomData.volume n =>
    if 0 < n then
      { p with
        prim_type :=
          fillRange
            (fun _ =>
              if geom.useMotionBlur && geom.hasMotionAttr then PRIMITIVE_MOTION_TRIANGLE
              else PRIMITIVE_TRIANGLE)
            n (resizeL p.prim_type n 0)
        prim_index := fillRange (fun k => Int.ofNat k) n (resizeL p.prim_index n 0) }
    else p

/-- Output of the shared primitive-packing step `BVH::pack_primitives`
(defined in `bvh/bvh.cpp`, which is not under `src/`); per the comment in
`pack_blas` it updates exactly `pack.prim_tri_index`, `pack.prim_tri_verts`
and `pack.prim_visibility`. -/
structure PPOut where
  prim_tri_index : List Nat
  prim_tri_verts : List Float4
  prim_visibility : List Nat
deriving DecidableEq

/-- Bottom-level pack `BVHOptiX::pack_blas`, for the single geometry and the
single owning object (the source asserts `geometry.size() == 1 &&
objects.size() == 1`).  The shared primitive-packing collaborator is passed
as the function `pp`, invoked on the object with its visibility zeroed; the
object's visibility is restored afterwards.  Returns the updated pack and
the updated object. -/
def pack_blas (geom : Geometry) (obj : Object) (p : PackedBVH)
    (pp : Object → PackedBVH → PPOut) : PackedBVH × Object :=
  let p1 := blasTypeIndex geom p
  let prev_visibility := obj.visibility
  let obj0 := { obj with visibility := 0 }
  let out := pp obj0 p1
  let p2 :=
    { p1 with
      prim_tri_index := out.prim_tri_index
      prim_tri_verts := out.prim_tri_verts
      prim_visibility := out.prim_visibility }
  (p2, { obj0 with visibility := prev_visibility })

/-- Overwrite `src.length` consecutive entries of `dst` starting at `off`:
the index-based form of both the per-slot write loop and the vertex `memcpy`
of `pack_instance`. -/
def blit {α : Type} (dst : List α) (off : Nat) (src : List α) : List α :=
  dst.take off ++ src ++ dst.drop (off + src.length)

/-- The `prims_have_changed` decision of `pack_instance`: defaults to true
(volumes and curves), cleared for an unmodified mesh without the force-pack
override, then or-ed with the modified-visibility flag. -/
def primsHaveChanged (geom : Geometry) (force_pack visibility_modified : Bool) : Bool :=
  (if geom.is_mesh then (geom.trianglesModified || force_pack) else true) ||
    visibility_modified

/-- The per-geometry merge task `BVHOptiX::pack_instance`, writing one
geometry's bottom-level pack into the scene pack `spack` at its precomputed
offsets. -/
def pack_instance (spack : PackedBVH) (geom : Geometry)
    (pack_offset pack_verts_offset : Nat) (object_index : Int)
    (object_visibility : Nat) (force_pack visibility_modified : Bool) :
    PackedBVH :=
  let bp := geom.bvhPack
  let n := bp.prim_index.length
  let spack1 :=
    if bp.prim_index ≠ [] then
      if primsHaveChanged geom force_pack visibility_modified then
        { spack with
          prim_index :=
            blit spack.prim_index pack_offset
              ((List.range n).map (fun i => bp.prim_index.getD i 0 + geom.primOffset))
          prim_tri_index :=
            blit spack.prim_tri_index pack_offset
              ((List.range n).map (fun i =>
                if bp.prim_type.getD i 0 &&& PRIMITIVE_ALL_CURVE ≠ 0 then uintMinusOne
                else (bp.prim_tri_index.getD i 0 + pack_verts_offset) % uintMod))
          prim_type :=
            blit spack.prim_type pack_offset
              ((List.range n).map (fun i => bp.prim_type.getD i 0))
          prim_object :=
            blit spack.prim_object pack_offset (List.replicate n object_index)
          prim_visibility :=
            blit spack.prim_visibility pack_offset (List.replicate n object_visibility) }
      else spack
    else spack
  if bp.prim_tri_verts ≠ [] then
    { spack1 with
      prim_tri_verts := blit spack1.prim_tri_verts pack_verts_offset bp.prim_tri_verts }
  else spack1

/-- The object scan at the head of the `pack_tlas` loop: or together the
tracing visibility of every object referencing the geometry, track the
modified flags, and for non-instanced geometry capture the first matching
object's device index and stop (the `break`).  Arguments carry the running
`object_index`, `object_visibility` and `visibility_modified` values. -/
def scanObjects (geom : Geometry) : List Object → Int → Nat → Bool → Int × Nat × Bool
  | [], oi, vis, vm => (oi, vis, vm)
  | ob :: rest, oi, vis, vm =>
    if ob.geomId == geom.gid then
      let vis2 := vis ||| ob.visibilityForTracing
      let vm2 := (vm || ob.visibilityIsModified) || ob.shadowCatcherIsModified
      if geom.isInstanced then scanObjects geom rest oi vis2 vm2
      else (ob.deviceIndex, vis2, vm2)
    else scanObjects geom rest oi vis vm

/-- Arguments captured by one scheduled `pack_instance` task. -/
structure TaskDesc where
  geomIdx : Nat
  pack_offset : Nat
  pack_verts_offset : Nat
  object_index : Int
  object_visibility : Nat
  force_pack : Bool
  visibility_modified : Bool
deriving DecidableEq

/-- The dispatch loop of `pack_tlas`: per geometry, record the vertex offset
into `device_verts_pointer`, scan the objects, schedule a task when the
geometry is modified or the pack-all override is set, and advance the running
offsets by the bottom-level sizes (guarded by emptiness exactly as in the
source).  Returns the updated geometry list and the scheduled tasks in
order. -/
def tlasDispatch (objs : List Object) (pack_all : Bool) :
    List Geometry → Nat → Nat → Nat → List Geometry × List TaskDesc
  | [], _, _, _ => ([], [])
  | g :: rest, idx, po, pvo =>
    let g1 := { g with deviceVertsPointer := pvo }
    let scan := scanObjects g objs 0 0 false
    let ts :=
      if g.isModified || pack_all then
        [⟨idx, po, pvo, scan.1, scan.2.1, pack_all, scan.2.2⟩]
      else []
    let po2 := if g.bvhPack.prim_index ≠ [] then po + g.bvhPack.prim_index.length else po
    let pvo2 :=
      if g.bvhPack.prim_tri_verts ≠ [] then pvo + g.bvhPack.prim_tri_verts.length else pvo
    let r := tlasDispatch objs pack_all rest (idx + 1) po2 pvo2
    (g1 :: r.1, ts ++ r.2)

/-- Size of a geometry's bottom-level slot array. -/
def szOf (g : Geometry) : Nat := g.bvhPack.prim_index.length

/-- Size of a geometry's bottom-level triangle-vertex array. -/
def vszOf (g : Geometry) : Nat := g.bvhPack.prim_tri_verts.length

/-- Cumulative slot offset of the geometry at position `i` (sum of the
bottom-level slot counts of the geometries before it). -/
def offBefore (geoms : List Geometry) (i : Nat) : Nat :=
  ((geoms.map szOf).take i).sum

/-- Cumulative vertex offset of the geometry at position `i`. -/
def voffBefore (geoms : List Geometry) (i : Nat) : Nat :=
  ((geoms.map vszOf).take i).sum

/-- Total scene slot count (`prim_index_size` in `pack_tlas`). -/
def totalPrim (geoms : List Geometry) : Nat := (geoms.map szOf).sum

/-- Total scene triangle-vertex count (`prim_tri_verts_size`). -/
def totalVerts (geoms : List Geometry) : Nat := (geoms.map vszOf).sum

/-- Resize every scene-level array to the computed totals (step 3 of
`pack_tlas`). -/
def resizePack (p : PackedBVH) (n vn : Nat) : PackedBVH :=
  { prim_type := resizeL p.prim_type n 0
    prim_index := resizeL p.prim_index n 0
    prim_object := resizeL p.prim_object n 0
    prim_visibility := resizeL p.prim_visibility n 0
    prim_tri_index := resizeL p.prim_tri_index n 0
    prim_tri_verts := resizeL p.prim_tri_verts vn ⟨0⟩ }

/-- Execute one scheduled task against the scene pack. -/
def runTask (geoms : List Geometry) (spack : PackedBVH) (t : TaskDesc) : PackedBVH :=
  match geoms.get? t.geomIdx with
  | some g =>
    pack_instance spack g t.pack_offset t.pack_verts_offset t.object_index
      t.object_visibility t.force_pack t.visibility_modified
  | none => spack

/-- Execute the scheduled tasks; the tasks write disjoint slices, so the
parallel pool is modelled by sequential execution in scheduling order. -/
def runTasks (geoms : List Geometry) (spack : PackedBVH) (ts : List TaskDesc) : PackedBVH :=
  ts.foldl (runTask geoms) spack

/-- Scene-level state owned by the top-level `BVHOptiX`: the geometry list,
the object list, the scene pack and the `params.pack_all_data` flag. -/
structure Scene where
  geometry : List Geometry
  objects : List Object
  pack : PackedBVH
  pack_all_data : Bool
deriving DecidableEq

/-- Top-level pack `BVHOptiX::pack_tlas`: compute the totals, return early
when the scene is empty, resize the scene arrays, dispatch one merge task
per modified (or force-packed) geometry and run them to completion.  Also
returns the list of scheduled tasks. -/
def pack_tlas (sc : Scene) : Scene × List TaskDesc :=
  let n := totalPrim sc.geometry
  let vn := totalVerts sc.geometry
  if n = 0 then (sc, [])
  else
    let spack := resizePack sc.pack n vn
    let r := tlasDispatch sc.objects sc.pack_all_data sc.geometry 0 0 0
    ({ sc with geometry := r.1, pack := runTasks sc.geometry spack r.2 }, r.2)

/-- Modelled from the spec: the progress-reporting collaborator
(`util_progress.h` is not under `src/`).  It records a textual status and an
error status string; reporting an error does not raise a fault. -/
structure Progress where
  status : String
  substatus : String
  error : Bool
  error_message : String
deriving DecidableEq

/-- Modelled from the spec: `Progress::set_status` records the status
strings. -/
def Progress.setStatus (pr : Progress) (s ss : String) : Progress :=
  { pr with status := s, substatus := ss }

/-- Modelled from the spec: `Progress::set_error` records the error status
string and marks the error flag, without raising a fault. -/
def Progress.setError (pr : Progress) (msg : String) : Progress :=
  { pr with error := true, error_message := msg }

/-- The upload step `BVHOptiX::copy_to_device`: report status, invoke the
external device build (its success is the `buildOk` argument) and on failure
report the error string through the progress collaborator.  The packed
representation is not touched; it is threaded through unchanged. -/
def copy_to_device (pr : Progress) (buildOk : Bool) (pack : PackedBVH) :
    Progress × PackedBVH :=
  let pr1 := pr.setStatus "Updating Scene BVH" "Building OptiX acceleration structure"
  if buildOk then (pr1, pack)
  else (pr1.setError "Failed to build OptiX acceleration structure", pack)

theorem length_resizeL {α : Type} (l : List α) (n : Nat) (fill : α) :
    (resizeL l n fill).length = n := by
  simp only [resizeL, List.length_append, List.length_take, List.length_replicate]
  omega

theorem resizeL_of_length_eq {α : Type} (l : List α) (n : Nat) (fill : α)
    (h : l.length = n) : resizeL l n fill = l := by
  subst h
  simp [resizeL]

theorem get?_eq_some_getD {α : Type} (l : List α) (i : Nat) (d : α)
    (h : i < l.length) : l.get? i = some (l.getD i d) := by
  rw [List.getD_eq_get?]
  cases h' : l.get? i with
  | none => exact absurd (List.get?_eq_none.mp h') (Nat.not_le.mpr h)
  | some a => rfl

theorem get?_replicate_of_lt {α : Type} (a : α) (n k : Nat) (h : k < n) :
    (List.replicate n a).get? k = some a := by
  simp [List.get?_eq_getElem?, List.getElem?_replicate, h]

theorem length_blit {α : Type} (dst : List α) (off : Nat) (src : List α)
    (h : off + src.length ≤ dst.length) : (blit dst off src).length = dst.length := by
  simp only [blit, List.length_append, List.length_take, List.length_drop]
  omega

theorem blit_get_left {α : Type} (dst : List α) (off : Nat) (src : List α)
    (hoff : off ≤ dst.length) (p : Nat) (hp : p < off) :
    (blit dst off src).get? p = dst.get? p := by
  have hlen : (dst.take off).length = off := by
    simp only [List.length_take]
    omega
  have hlen2 : (dst.take off ++ src).length = off + src.length := by
    simp [hlen]
  rw [blit, List.get?_append (by omega), List.get?_append (by omega),
    List.get?_take hp]

theorem blit_get_inside {α : Type} (dst : List α) (off : Nat) (src : List α)
    (hoff : off ≤ dst.length) (k : Nat) (hk : k < src.length) :
    (blit dst off src).get? (off + k) = src.get? k := by
  have hlen : (dst.take off).length = off := by
    simp only [List.length_take]
    omega
  have hlen2 : (dst.take off ++ src).length = off + src.length := by
    simp [hlen]
  rw [blit, List.get?_append (by omega), List.get?_append_right (by omega), hlen,
    Nat.add_sub_cancel_left]

theorem blit_get_right {α : Type} (dst : List α) (off : Nat) (src : List α)
    (hb : off + src.length ≤ dst.length) (p : Nat) (hp : off + src.length ≤ p) :
    (blit dst off src).get? p = dst.get? p := by
  have hlen : (dst.take off).length = off := by
    simp only [List.length_take]
    omega
  have hlen2 : (dst.take off ++ src).length = off + src.length := by
    simp [hlen]
  rw [blit, List.get?_append_right (by omega), hlen2, List.get?_drop]
  congr 1
  omega

theorem fillRange_succ {α : Type} (f : Nat → α) (m : Nat) (l : List α) :
    fillRange f (m + 1) l = (fillRange f m l).set m (f m) := by
  simp [fillRange, List.range_succ]

theorem length_fillRange {α : Type} (f : Nat → α) :
    ∀ (m : Nat) (l : List α), (fillRange f m l).length = l.length := by
  intro m
  induction m with
  | zero => intro l; simp [fillRange]
  | succ m ih =>
    intro l
    rw [fillRange_succ, List.length_set, ih]

theorem fillRange_get? {α : Type} (f : Nat → α) :
    ∀ (m : Nat) (l : List α) (i : Nat),
      (fillRange f m l).get? i =
        if i < m ∧ i < l.length then some (f i) else l.get? i := by
  intro m
  induction m with
  | zero =>
    intro l i
    simp [fillRange]
  | succ m ih =>
    intro l i
    rw [fillRange_succ]
    rcases Nat.lt_trichotomy i m with hlt | heq | hgt
    · rw [List.get?_set_ne _ _ (by omega), ih]
      by_cases hi : i < l.length
      · simp [hlt, hi, Nat.lt_succ_of_lt hlt]
      · simp [hi]
    · subst heq
    -- the last write of the loop lands at position `i`
      rw [List.get?_set_eq]
      rw [ih]
      by_cases hi : i < l.length
      · simp only [Nat.lt_irrefl, false_and, if_false]
        rw [get?_eq_some_getD l i (f i) hi]
        simp [hi, Nat.lt_succ_self]
      · have h0 : l.get? i = none := List.get?_eq_none.mpr (Nat.not_lt.mp hi)
        have h1 : l[i]? = none := by
          rw [← List.get?_eq_getElem?]
          exact h0
        simp [h0, h1, hi]
    · rw [List.get?_set_ne _ _ (by omega), ih]
      have h1 : ¬(i < m) := by omega
      have h2 : ¬(i < m + 1) := by omega
      simp [h1, h2]

theorem sumTake_succ (l : List Nat) :
    ∀ (i : Nat) (x : Nat), l.get? i = some x →
      (l.take (i + 1)).sum = (l.take i).sum + x := by
  induction l with
  | nil => intro i x h; simp at h
  | cons a l ih =>
    intro i x h
    cases i with
    | zero =>
      simp only [List.get?] at h
      cases h
      simp
    | succ i =>
      simp only [List.get?] at h
      have := ih i x h
      simp only [List.take_succ_cons, List.sum_cons, this]
      omega

theorem sumTake_mono (l : List Nat) {i j : Nat} (h : i ≤ j) :
    (l.take i).sum ≤ (l.take j).sum := by
  have h1 : (l.take j).sum = ((l.take j).take i).sum + ((l.take j).drop i).sum := by
    rw [← List.sum_append, List.take_append_drop]
  rw [List.take_take, min_eq_left h] at h1
  omega

theorem sumTake_le_sum (l : List Nat) (i : Nat) : (l.take i).sum ≤ l.sum := by
  conv_rhs => rw [← List.take_append_drop i l]
  rw [List.sum_append]
  omega

/-- The spec's words for the hair slot types: "for each curve, for each
segment within it, append a type tag (base type ... combined with the
segment's local index packed into the tag)". -/
def hairTypeSpec (ty : Nat) : List Nat → List Nat
  | [] => []
  | nseg :: rest => (List.range nseg).map (PRIMITIVE_PACK_SEGMENT ty) ++ hairTypeSpec ty rest

/-- The spec's words for the hair slot indices: "every slot's `prim_index`
equals its curve's index, not its segment's index"; the curve at position
`j0` contributes one copy of `j0` per segment. -/
def hairIndexFrom (j0 : Nat) : List Nat → List Int
  | [] => []
  | nseg :: rest => List.replicate nseg (Int.ofNat j0) ++ hairIndexFrom (j0 + 1) rest

theorem hairIndexFrom_length (j0 : Nat) (curves : List Nat) :
    (hairIndexFrom j0 curves).length = curves.sum := by
  induction curves generalizing j0 with
  | nil => rfl
  | cons n rest ih => simp [hairIndexFrom, ih]

theorem hairTypeSpec_length (ty : Nat) (curves : List Nat) :
    (hairTypeSpec ty curves).length = curves.sum := by
  induction curves with
  | nil => rfl
  | cons n rest ih => simp [hairTypeSpec, ih]

theorem blasHairSegs_spec (ty j nseg : Nat) (p : PackedBVH) :
    blasHairSegs ty j nseg p =
      { p with
        prim_type := p.prim_type ++ (List.range nseg).map (PRIMITIVE_PACK_SEGMENT ty)
        prim_index := p.prim_index ++ List.replicate nseg (Int.ofNat j)
        prim_object := p.prim_object ++ List.replicate nseg 0 } := by
  induction nseg with
  | zero => simp [blasHairSegs]
  | succ n ih =>
    have step : blasHairSegs ty j (n + 1) p =
        pushSlot (blasHairSegs ty j n p) (PRIMITIVE_PACK_SEGMENT ty n) (Int.ofNat j) 0 := by
      simp [blasHairSegs, List.range_succ]
    rw [step, ih]
    simp [pushSlot, List.replicate_succ', List.range_succ]

theorem blasHairCurves_spec (ty : Nat) :
    ∀ (curves : List Nat) (j : Nat) (p : PackedBVH),
      blasHairCurves ty j curves p =
        { p with
          prim_type := p.prim_type ++ hairTypeSpec ty curves
          prim_index := p.prim_index ++ hairIndexFrom j curves
          prim_object := p.prim_object ++ List.replicate curves.sum 0 } := by
  intro curves
  induction curves with
  | nil => intro j p; simp [blasHairCurves, hairTypeSpec, hairIndexFrom]
  | cons n rest ih =>
    intro j p
    rw [blasHairCurves, blasHairSegs_spec, ih]
    simp only [hairTypeSpec, hairIndexFrom, List.sum_cons, List.replicate_add,
      List.append_assoc]

theorem primsHaveChanged_of (g : Geometry) (f vm : Bool)
    (h : g.is_mesh = false ∨ g.trianglesModified = true) :
    primsHaveChanged g f vm = true := by
  rcases h with h | h <;> simp [primsHaveChanged, h]

theorem offBefore_zero (geoms : List Geometry) : offBefore geoms 0 = 0 := by
  simp [offBefore]

theorem voffBefore_zero (geoms : List Geometry) : voffBefore geoms 0 = 0 := by
  simp [voffBefore]

theorem offBefore_succ (geoms : List Geometry) (i : Nat) (g : Geometry)
    (h : geoms.get? i = some g) :
    offBefore geoms (i + 1) = offBefore geoms i + szOf g := by
  have hm : (geoms.map szOf).get? i = some (szOf g) := by
    rw [List.get?_map, h]
    rfl
  exact sumTake_succ (geoms.map szOf) i (szOf g) hm

theorem voffBefore_succ (geoms : List Geometry) (i : Nat) (g : Geometry)
    (h : geoms.get? i = some g) :
    voffBefore geoms (i + 1) = voffBefore geoms i + vszOf g := by
  have hm : (geoms.map vszOf).get? i = some (vszOf g) := by
    rw [List.get?_map, h]
    rfl
  exact sumTake_succ (geoms.map vszOf) i (vszOf g) hm

theorem offBefore_mono (geoms : List Geometry) {i j : Nat} (h : i ≤ j) :
    offBefore geoms i ≤ offBefore geoms j :=
  sumTake_mono _ h

theorem voffBefore_mono (geoms : List Geometry) {i j : Nat} (h : i ≤ j) :
    voffBefore geoms i ≤ voffBefore geoms j :=
  sumTake_mono _ h

theorem offBefore_le_total (geoms : List Geometry) (i : Nat) :
    offBefore geoms i ≤ totalPrim geoms :=
  sumTake_le_sum _ i

theorem voffBefore_le_total (geoms : List Geometry) (i : Nat) :
    voffBefore geoms i ≤ totalVerts geoms :=
  sumTake_le_sum _ i

/-- When the geometry is instanced the object scan never breaks, so the
merged visibility is the left fold of bitwise-or over exactly the objects
that reference the geometry. -/
theorem scanObjects_vis_of_instanced (g : Geometry) (hInst : g.isInstanced = true) :
    ∀ (objs : List Object) (oi : Int) (vis : Nat) (vm : Bool),
      (scanObjects g objs oi vis vm).2.1 =
        (objs.filter (fun o => o.geomId == g.gid)).foldl
          (fun v o => v ||| o.visibilityForTracing) vis := by
  intro objs
  induction objs with
  | nil => intro oi vis vm; rfl
  | cons ob rest ih =>
    intro oi vis vm
    by_cases hob : ob.geomId == g.gid
    · simp [scanObjects, hob, hInst, List.filter_cons, ih]
    · simp [scanObjects, hob, List.filter_cons, ih]

/-- The task that the dispatch loop schedules for the geometry at position
`i` of the full list, with its offsets written as the cumulative sums. -/
def taskFor (objs : List Object) (pa : Bool) (all : List Geometry) (i : Nat)
    (g : Geometry) : TaskDesc :=
  let scan := scanObjects g objs 0 0 false
  ⟨i, offBefore all i, voffBefore all i, scan.1, scan.2.1, pa, scan.2.2⟩

/-- Closed form of the scheduled task list: one task per modified (or
force-packed) geometry, in list order, at the cumulative offsets. -/
def mkTasks (objs : List Object) (pa : Bool) (all : List Geometry) :
    Nat → List Geometry → List TaskDesc
  | _, [] => []
  | i, g :: rest =>
    (if g.isModified || pa then [taskFor objs pa all i g] else []) ++
      mkTasks objs pa all (i + 1) rest

theorem tlasDispatch_tasks (objs : List Object) (pa : Bool) (all : List Geometry) :
    ∀ (gl : List Geometry) (idx : Nat), gl = all.drop idx →
      (tlasDispatch objs pa gl idx (offBefore all idx) (voffBefore all idx)).2 =
        mkTasks objs pa all idx gl := by
  intro gl
  induction gl with
  | nil => intro idx _; simp [tlasDispatch, mkTasks]
  | cons g rest ih =>
    intro idx h
    have hget : all.get? idx = some g := by
      have h0 : (all.drop idx).get? 0 = all.get? (idx + 0) := List.get?_drop all idx 0
      rw [← h] at h0
      simpa using h0.symm
    have hrest : rest = all.drop (idx + 1) := by
      have h1 : List.drop 1 (List.drop idx all) = all.drop (idx + 1) := by
        rw [List.drop_drop]
      rw [← h] at h1
      simpa using h1
    have hpo2 :
        (if g.bvhPack.prim_index ≠ [] then
          offBefore all idx + g.bvhPack.prim_index.length
        else offBefore all idx) = offBefore all (idx + 1) := by
      rw [offBefore_succ all idx g hget]
      by_cases he : g.bvhPack.prim_index = []
      · simp [he, szOf]
      · simp [he, szOf]
    have hpvo2 :
        (if g.bvhPack.prim_tri_verts ≠ [] then
          voffBefore all idx + g.bvhPack.prim_tri_verts.length
        else voffBefore all idx) = voffBefore all (idx + 1) := by
      rw [voffBefore_succ all idx g hget]
      by_cases he : g.bvhPack.prim_tri_verts = []
      · simp [he, vszOf]
      · simp [he, vszOf]
    show (tlasDispatch objs pa (g :: rest) idx (offBefore all idx) (voffBefore all idx)).2 =
      mkTasks objs pa all idx (g :: rest)
    simp only [tlasDispatch, mkTasks]
    rw [hpo2, hpvo2, ih (idx + 1) hrest]
    simp [taskFor]

theorem mkTasks_nil_of_unmodified (objs : List Object) (all : List Geometry) :
    ∀ (gl : List Geometry) (idx : Nat),
      (∀ g ∈ gl, g.isModified = false) →
      mkTasks objs false all idx gl = [] := by
  intro gl
  induction gl with
  | nil => intro idx _; rfl
  | cons g rest ih =>
    intro idx hmod
    have hg : g.isModified = false := hmod g (List.mem_cons_self g rest)
    simp only [mkTasks, hg, Bool.false_or, if_neg Bool.false_ne_true, List.nil_append]
    exact ih (idx + 1) (fun g' hg' => hmod g' (List.mem_cons_of_mem g hg'))

theorem mkTasks_offsets (objs : List Object) (pa : Bool) (all : List Geometry) :
    ∀ (gl : List Geometry) (idx : Nat) (t : TaskDesc),
      t ∈ mkTasks objs pa all idx gl →
      t.pack_offset = offBefore all t.geomIdx ∧
      t.pack_verts_offset = voffBefore all t.geomIdx := by
  intro gl
  induction gl with
  | nil => intro idx t ht; simp [mkTasks] at ht
  | cons g rest ih =>
    intro idx t ht
    simp only [mkTasks, List.mem_append] at ht
    rcases ht with ht | ht
    · by_cases hc : g.isModified || pa
      · rw [if_pos hc] at ht
        simp only [List.mem_singleton] at ht
        subst ht
        exact ⟨rfl, rfl⟩
      · rw [if_neg hc] at ht
        simp at ht
    · exact ih (idx + 1) t ht

theorem resizePack_self (p : PackedBVH) (n vn : Nat)
    (h1 : p.prim_type.length = n) (h2 : p.prim_index.length = n)
    (h3 : p.prim_object.length = n) (h4 : p.prim_visibility.length = n)
    (h5 : p.prim_tri_index.length = n) (h6 : p.prim_tri_verts.length = vn) :
    resizePack p n vn = p := by
  cases p
  simp only [resizePack] at *
  rw [resizeL_of_length_eq _ _ _ h1, resizeL_of_length_eq _ _ _ h2,
    resizeL_of_length_eq _ _ _ h3, resizeL_of_length_eq _ _ _ h4,
    resizeL_of_length_eq _ _ _ h5, resizeL_of_length_eq _ _ _ h6]

theorem pack_instance_prim_type (spack : PackedBVH) (g : Geometry) (off voff : Nat)
    (oi : Int) (ovis : Nat) (f vm : Bool) :
    (pack_instance spack g off voff oi ovis f vm).prim_type =
      if g.bvhPack.prim_index ≠ [] ∧ primsHaveChanged g f vm = true then
        blit spack.prim_type off
          ((List.range g.bvhPack.prim_index.length).map
            (fun i => g.bvhPack.prim_type.getD i 0))
      else spack.prim_type := by
  by_cases h1 : g.bvhPack.prim_index = [] <;>
    by_cases h2 : primsHaveChanged g f vm = true <;>
      simp [pack_instance, h1, h2] <;> split <;> rfl

theorem pack_instance_prim_index (spack : PackedBVH) (g : Geometry) (off voff : Nat)
    (oi : Int) (ovis : Nat) (f vm : Bool) :
    (pack_instance spack g off voff oi ovis f vm).prim_index =
      if g.bvhPack.prim_index ≠ [] ∧ primsHaveChanged g f vm = true then
        blit spack.prim_index off
          ((List.range g.bvhPack.prim_index.length).map
            (fun i => g.bvhPack.prim_index.getD i 0 + g.primOffset))
      else spack.prim_index := by
  by_cases h1 : g.bvhPack.prim_index = [] <;>
    by_cases h2 : primsHaveChanged g f vm = true <;>
      simp [pack_instance, h1, h2] <;> split <;> rfl

theorem pack_instance_prim_object (spack : PackedBVH) (g : Geometry) (off voff : Nat)
    (oi : Int) (ovis : Nat) (f vm : Bool) :
    (pack_instance spack g off voff oi ovis f vm).prim_object =
      if g.bvhPack.prim_index ≠ [] ∧ primsHaveChanged g f vm = true then
        blit spack.prim_object off
          (List.replicate g.bvhPack.prim_index.length oi)
      else spack.prim_object := by
  by_cases h1 : g.bvhPack.prim_index = [] <;>
    by_cases h2 : primsHaveChanged g f vm = true <;>
      simp [pack_instance, h1, h2] <;> split <;> rfl

theorem pack_instance_prim_visibility (spack : PackedBVH) (g : Geometry)
    (off voff : Nat) (oi : Int) (ovis : Nat) (f vm : Bool) :
    (pack_instance spack g off voff oi ovis f vm).prim_visibility =
      if g.bvhPack.prim_index ≠ [] ∧ primsHaveChanged g f vm = true then
        blit spack.prim_visibility off
          (List.replicate g.bvhPack.prim_index.length ovis)
      else spack.prim_visibility := by
  by_cases h1 : g.bvhPack.prim_index = [] <;>
    by_cases h2 : primsHaveChanged g f vm = true <;>
      simp [pack_instance, h1, h2] <;> split <;> rfl

theorem pack_instance_prim_tri_index (spack : PackedBVH) (g : Geometry)
    (off voff : Nat) (oi : Int) (ovis : Nat) (f vm : Bool) :
    (pack_instance spack g off voff oi ovis f vm).prim_tri_index =
      if g.bvhPack.prim_index ≠ [] ∧ primsHaveChanged g f vm = true then
        blit spack.prim_tri_index off
          ((List.range g.bvhPack.prim_index.length).map
            (fun i =>
              if g.bvhPack.prim_type.getD i 0 &&& PRIMITIVE_ALL_CURVE ≠ 0 then
                uintMinusOne
              else (g.bvhPack.prim_tri_index.getD i 0 + voff) % uintMod))
      else spack.prim_tri_index := by
  by_cases h1 : g.bvhPack.prim_index = [] <;>
    by_cases h2 : primsHaveChanged g f vm = true <;>
      simp [pack_instance, h1, h2] <;> split <;> rfl

theorem pack_instance_prim_tri_verts (spack : PackedBVH) (g : Geometry)
    (off voff : Nat) (oi : Int) (ovis : Nat) (f vm : Bool) :
    (pack_instance spack g off voff oi ovis f vm).prim_tri_verts =
      if g.bvhPack.prim_tri_verts ≠ [] then
        blit spack.prim_tri_verts voff g.bvhPack.prim_tri_verts
      else spack.prim_tri_verts := by
  by_cases h1 : g.bvhPack.prim_index = [] <;>
    by_cases h2 : primsHaveChanged g f vm = true <;>
      by_cases h3 : g.bvhPack.prim_tri_verts = [] <;>
        simp [pack_instance, h1, h2, h3]

theorem pi_vis_length (spack : PackedBVH) (g : Geometry) (off voff : Nat)
    (oi : Int) (ovis : Nat) (f vm : Bool)
    (h : off + szOf g ≤ spack.prim_visibility.length) :
    (pack_instance spack g off voff oi ovis f vm).prim_visibility.length =
      spack.prim_visibility.length := by
  rw [pack_instance_prim_visibility]
  split
  · exact length_blit _ _ _ (by simpa [szOf] using h)
  · rfl

theorem pi_vis_outside (spack : PackedBVH) (g : Geometry) (off voff : Nat)
    (oi : Int) (ovis : Nat) (f vm : Bool)
    (h : off + szOf g ≤ spack.prim_visibility.length) (p : Nat)
    (hp : p < off ∨ off + szOf g ≤ p) :
    (pack_instance spack g off voff oi ovis f vm).prim_visibility.get? p =
      spack.prim_visibility.get? p := by
  rw [pack_instance_prim_visibility]
  split
  · rcases hp with hp | hp
    · exact blit_get_left _ _ _ (by simp only [szOf] at h; omega) p hp
    · exact blit_get_right _ _ _ (by simpa [szOf] using h) p
        (by simpa [szOf] using hp)
  · rfl

theorem pi_vis_inside (spack : PackedBVH) (g : Geometry) (off voff : Nat)
    (oi : Int) (ovis : Nat) (f vm : Bool)
    (hne : g.bvhPack.prim_index ≠ []) (hch : primsHaveChanged g f vm = true)
    (h : off + szOf g ≤ spack.prim_visibility.length) (k : Nat) (hk : k < szOf g) :
    (pack_instance spack g off voff oi ovis f vm).prim_visibility.get? (off + k) =
      some ovis := by
  rw [pack_instance_prim_visibility, if_pos ⟨hne, hch⟩,
    blit_get_inside _ _ _ (by simp only [szOf] at h; omega) k
      (by simpa [szOf] using hk)]
  exact get?_replicate_of_lt _ _ _ (by simpa [szOf] using hk)

theorem runTasks_append (geoms : List Geometry) (spack : PackedBVH)
    (ts1 ts2 : List TaskDesc) :
    runTasks geoms spack (ts1 ++ ts2) = runTasks geoms (runTasks geoms spack ts1) ts2 :=
  List.foldl_append _ _ _ _

theorem runTasks_cons (geoms : List Geometry) (spack : PackedBVH) (t : TaskDesc)
    (ts : List TaskDesc) :
    runTasks geoms spack (t :: ts) = runTasks geoms (runTask geoms spack t) ts := rfl

theorem runTask_taskFor (all : List Geometry) (objs : List Object) (pa : Bool)
    (spack : PackedBVH) (idx : Nat) (g : Geometry) (hget : all.get? idx = some g) :
    runTask all spack (taskFor objs pa all idx g) =
      pack_instance spack g (offBefore all idx) (voffBefore all idx)
        (scanObjects g objs 0 0 false).1 (scanObjects g objs 0 0 false).2.1 pa
        (scanObjects g objs 0 0 false).2.2 := by
  have hget' : all[idx]? = some g := by
    rw [← List.get?_eq_getElem?]
    exact hget
  simp [runTask, taskFor, hget']

theorem runTasks_vis_preserve (objs : List Object) (pa : Bool) (all : List Geometry) :
    ∀ (gl : List Geometry) (idx : Nat) (spack : PackedBVH) (p : Nat),
      gl = all.drop idx →
      spack.prim_visibility.length = totalPrim all →
      p < offBefore all idx →
      (runTasks all spack (mkTasks objs pa all idx gl)).prim_visibility.get? p =
          spack.prim_visibility.get? p ∧
        (runTasks all spack (mkTasks objs pa all idx gl)).prim_visibility.length =
          totalPrim all := by
  intro gl
  induction gl with
  | nil => intro idx spack p _ hlen _; exact ⟨rfl, hlen⟩
  | cons g rest ih =>
    intro idx spack p h hlen hp
    have hget : all.get? idx = some g := by
      have h0 : (all.drop idx).get? 0 = all.get? (idx + 0) := List.get?_drop all idx 0
      rw [← h] at h0
      simpa using h0.symm
    have hrest : rest = all.drop (idx + 1) := by
      have h1 : List.drop 1 (List.drop idx all) = all.drop (idx + 1) := by
        rw [List.drop_drop]
      rw [← h] at h1
      simpa using h1
    have hsucc : offBefore all (idx + 1) = offBefore all idx + szOf g :=
      offBefore_succ all idx g hget
    have hbound : offBefore all idx + szOf g ≤ totalPrim all := by
      rw [← hsucc]
      exact offBefore_le_total all (idx + 1)
    have hp1 : p < offBefore all (idx + 1) := by omega
    by_cases hc : (g.isModified || pa) = true
    · rw [mkTasks, if_pos hc, List.singleton_append, runTasks_cons]
      rw [runTask_taskFor all objs pa spack idx g hget]
      have hb' : offBefore all idx + szOf g ≤ spack.prim_visibility.length := by
        rw [hlen]; exact hbound
      have hlen' := pi_vis_length spack g (offBefore all idx) (voffBefore all idx)
        (scanObjects g objs 0 0 false).1 (scanObjects g objs 0 0 false).2.1 pa
        (scanObjects g objs 0 0 false).2.2 hb'
      have hout := pi_vis_outside spack g (offBefore all idx) (voffBefore all idx)
        (scanObjects g objs 0 0 false).1 (scanObjects g objs 0 0 false).2.1 pa
        (scanObjects g objs 0 0 false).2.2 hb' p (Or.inl hp)
      have := ih (idx + 1)
        (pack_instance spack g (offBefore all idx) (voffBefore all idx)
          (scanObjects g objs 0 0 false).1 (scanObjects g objs 0 0 false).2.1 pa
          (scanObjects g objs 0 0 false).2.2)
        p hrest (by rw [hlen', hlen]) hp1
      exact ⟨by rw [this.1, hout], this.2⟩
    · rw [mkTasks, if_neg hc, List.nil_append]
      exact ih (idx + 1) spack p hrest hlen hp1

theorem runTasks_vis_block (objs : List Object) (pa : Bool) (all : List Geometry) :
    ∀ (gl : List Geometry) (idx : Nat) (spack : PackedBVH),
      gl = all.drop idx →
      spack.prim_visibility.length = totalPrim all →
      ∀ (gi : Nat) (G : Geometry), all.get? gi = some G → idx ≤ gi →
        (G.isModified || pa) = true →
        (G.is_mesh = false ∨ G.trianglesModified = true) →
        ∀ k, k < szOf G →
          (runTasks all spack (mkTasks objs pa all idx gl)).prim_visibility.get?
              (offBefore all gi + k) =
            some ((scanObjects G objs 0 0 false).2.1) := by
  intro gl
  induction gl with
  | nil =>
    intro idx spack h _ gi G hGi hle _ _ k hk
    have h1 : all.length ≤ idx := List.drop_eq_nil_iff_le.mp h.symm
    have h2 : gi < all.length := (List.get?_eq_some.mp hGi).1
    omega
  | cons g rest ih =>
    intro idx spack h hlen gi G hGi hle hmod hcopy k hk
    have hget : all.get? idx = some g := by
      have h0 : (all.drop idx).get? 0 = all.get? (idx + 0) := List.get?_drop all idx 0
      rw [← h] at h0
      simpa using h0.symm
    have hrest : rest = all.drop (idx + 1) := by
      have h1 : List.drop 1 (List.drop idx all) = all.drop (idx + 1) := by
        rw [List.drop_drop]
      rw [← h] at h1
      simpa using h1
    have hsucc : offBefore all (idx + 1) = offBefore all idx + szOf g :=
      offBefore_succ all idx g hget
    have hbound : offBefore all idx + szOf g ≤ totalPrim all := by
      rw [← hsucc]
      exact offBefore_le_total all (idx + 1)
    rcases Nat.eq_or_lt_of_le hle with heq | hlt
    · -- the head of the remaining list is the target geometry
      subst heq
      have hgG : g = G := by
        rw [hget] at hGi
        exact Option.some.inj hGi
      subst hgG
      rw [mkTasks, if_pos hmod, List.singleton_append, runTasks_cons]
      rw [runTask_taskFor all objs pa spack idx g hget]
      have hb' : offBefore all idx + szOf g ≤ spack.prim_visibility.length := by
        rw [hlen]; exact hbound
      have hne : g.bvhPack.prim_index ≠ [] :=
        List.ne_nil_of_length_pos (by
          have : 0 < szOf g := Nat.lt_of_le_of_lt (Nat.zero_le k) hk
          simpa [szOf] using this)
      have hch : primsHaveChanged g pa (scanObjects g objs 0 0 false).2.2 = true :=
        primsHaveChanged_of g pa _ hcopy
      have hin := pi_vis_inside spack g (offBefore all idx) (voffBefore all idx)
        (scanObjects g objs 0 0 false).1 (scanObjects g objs 0 0 false).2.1 pa
        (scanObjects g objs 0 0 false).2.2 hne hch hb' k hk
      have hlen' := pi_vis_length spack g (offBefore all idx) (voffBefore all idx)
        (scanObjects g objs 0 0 false).1 (scanObjects g objs 0 0 false).2.1 pa
        (scanObjects g objs 0 0 false).2.2 hb'
      have hpres := runTasks_vis_preserve objs pa all rest (idx + 1)
        (pack_instance spack g (offBefore all idx) (voffBefore all idx)
          (scanObjects g objs 0 0 false).1 (scanObjects g objs 0 0 false).2.1 pa
          (scanObjects g objs 0 0 false).2.2)
        (offBefore all idx + k) hrest (by rw [hlen', hlen])
        (by rw [hsucc]; omega)
      rw [hpres.1, hin]
    · -- the target geometry lies further down the list
      have hle1 : idx + 1 ≤ gi := hlt
      by_cases hc : (g.isModified || pa) = true
      · rw [mkTasks, if_pos hc, List.singleton_append, runTasks_cons]
        rw [runTask_taskFor all objs pa spack idx g hget]
        have hb' : offBefore all idx + szOf g ≤ spack.prim_visibility.length := by
          rw [hlen]; exact hbound
        have hlen' := pi_vis_length spack g (offBefore all idx) (voffBefore all idx)
          (scanObjects g objs 0 0 false).1 (scanObjects g objs 0 0 false).2.1 pa
          (scanObjects g objs 0 0 false).2.2 hb'
        have := ih (idx + 1)
          (pack_instance spack g (offBefore all idx) (voffBefore all idx)
            (scanObjects g objs 0 0 false).1 (scanObjects g objs 0 0 false).2.1 pa
            (scanObjects g objs 0 0 false).2.2)
          hrest (by rw [hlen', hlen]) gi G hGi hle1 hmod hcopy k hk
        exact this
      · rw [mkTasks, if_neg hc, List.nil_append]
        exact ih (idx + 1) spack hrest hlen gi G hGi hle1 hmod hcopy k hk

theorem pack_tlas_of_ne (sc : Scene) (h : totalPrim sc.geometry ≠ 0) :
    (pack_tlas sc).1.pack =
      runTasks sc.geometry
        (resizePack sc.pack (totalPrim sc.geometry) (totalVerts sc.geometry))
        (mkTasks sc.objects sc.pack_all_data sc.geometry 0 sc.geometry) ∧
    (pack_tlas sc).2 = mkTasks sc.objects sc.pack_all_data sc.geometry 0 sc.geometry := by
  have hzero : sc.geometry = sc.geometry.drop 0 := (List.drop_zero sc.geometry).symm
  have hd := tlasDispatch_tasks sc.objects sc.pack_all_data sc.geometry sc.geometry 0 hzero
  rw [offBefore_zero, voffBefore_zero] at hd
  constructor
  · simp [pack_tlas, h, hd]
  · simp [pack_tlas, h, hd]

/-- C3: when the sum of all geometries' bottom-level `prim_index` sizes is
zero, `pack_tlas` returns early: the whole scene state (in particular every
scene-level pack array) is left unchanged, no resize is performed, and no
merge task is scheduled.  The empty scene is not an error (the function
simply returns). -/
theorem claim_C3_empty_scene (sc : Scene) (h : totalPrim sc.geometry = 0) :
    pack_tlas sc = (sc, []) := by
  simp [pack_tlas, h]

/-- C4: in `pack_tlas`, the slot range and the vertex range assigned to
distinct geometries never overlap (the range of the earlier geometry `i`
ends at or before the start of the later geometry `j`, both derived from
cumulative sums in geometry-list order), and every scheduled task's offsets
equal the cumulative sums at its geometry's position — i.e. the running
offsets advance by each geometry's bottom-level sizes whether or not a
merge task was scheduled for it. -/
theorem claim_C4_partition (sc : Scene) (i j : Nat) (gI : Geometry)
    (hi : sc.geometry.get? i = some gI) (hij : i < j) :
    (offBefore sc.geometry i + szOf gI ≤ offBefore sc.geometry j ∧
      voffBefore sc.geometry i + vszOf gI ≤ voffBefore sc.geometry j) ∧
    ∀ t ∈ (pack_tlas sc).2,
      t.pack_offset = offBefore sc.geometry t.geomIdx ∧
      t.pack_verts_offset = voffBefore sc.geometry t.geomIdx := by
  constructor
  · constructor
    · rw [← offBefore_succ sc.geometry i gI hi]
      exact offBefore_mono sc.geometry hij
    · rw [← voffBefore_succ sc.geometry i gI hi]
      exact voffBefore_mono sc.geometry hij
  · intro t ht
    by_cases htot : totalPrim sc.geometry = 0
    · simp [pack_tlas, htot] at ht
    · obtain ⟨-, htasks⟩ := pack_tlas_of_ne sc htot
      rw [htasks] at ht
      exact mkTasks_offsets sc.objects sc.pack_all_data sc.geometry sc.geometry 0 t ht

/-- C7: re-running `pack_tlas` when no geometry is marked modified, no
object's visibility or shadow-catcher flag is marked modified, and the
force-pack-all-data override is off, leaves every scene-level pack array
unchanged: no merge task is scheduled and resizing to the same totals
preserves the existing contents. -/
theorem claim_C7_idempotent (sc : Scene)
    (hg : ∀ g ∈ sc.geometry, g.isModified = false)
    (hpa : sc.pack_all_data = false)
    (ho : ∀ o ∈ sc.objects,
      o.visibilityIsModified = false ∧ o.shadowCatcherIsModified = false)
    (hl1 : sc.pack.prim_type.length = totalPrim sc.geometry)
    (hl2 : sc.pack.prim_index.length = totalPrim sc.geometry)
    (hl3 : sc.pack.prim_object.length = totalPrim sc.geometry)
    (hl4 : sc.pack.prim_visibility.length = totalPrim sc.geometry)
    (hl5 : sc.pack.prim_tri_index.length = totalPrim sc.geometry)
    (hl6 : sc.pack.prim_tri_verts.length = totalVerts sc.geometry) :
    (pack_tlas sc).1.pack = sc.pack ∧ (pack_tlas sc).2 = [] := by
  by_cases htot : totalPrim sc.geometry = 0
  · constructor <;> simp [pack_tlas, htot]
  · obtain ⟨hpack, htasks⟩ := pack_tlas_of_ne sc htot
    have hmt : mkTasks sc.objects sc.pack_all_data sc.geometry 0 sc.geometry = [] := by
      rw [hpa]
      exact mkTasks_nil_of_unmodified sc.objects sc.geometry sc.geometry 0 hg
    refine ⟨?_, by rw [htasks, hmt]⟩
    rw [hpack, hmt]
    show resizePack sc.pack (totalPrim sc.geometry) (totalVerts sc.geometry) = sc.pack
    exact resizePack_self sc.pack _ _ hl1 hl2 hl3 hl4 hl5 hl6

/-- C6: when two objects `A` and `B` both reference an (instanced) geometry
`G`, every slot of `G`'s block in the merged scene pack carries
`prim_visibility` equal to the bitwise or of the two objects' tracing
visibility masks: the top-level packer merges the visibility flags of all
objects referencing the geometry before dispatching the merge task.  The
hypotheses make `G`'s merge task run and copy (geometry modified; curve or
volume geometry, or mesh with modified triangles). -/
theorem claim_C6_visibility_merge (sc : Scene) (gi : Nat) (G : Geometry)
    (A B : Object)
    (hgi : sc.geometry.get? gi = some G)
    (hInst : G.isInstanced = true)
    (hMod : G.isModified = true)
    (hcopy : G.is_mesh = false ∨ G.trianglesModified = true)
    (hAB : sc.objects.filter (fun o => o.geomId == G.gid) = [A, B]) :
    ∀ k, k < szOf G →
      (pack_tlas sc).1.pack.prim_visibility.get? (offBefore sc.geometry gi + k) =
        some (A.visibilityForTracing ||| B.visibilityForTracing) := by
  intro k hk
  have hle : offBefore sc.geometry gi + szOf G ≤ totalPrim sc.geometry := by
    rw [← offBefore_succ sc.geometry gi G hgi]
    exact offBefore_le_total sc.geometry (gi + 1)
  have htot : totalPrim sc.geometry ≠ 0 := by omega
  obtain ⟨hpack, -⟩ := pack_tlas_of_ne sc htot
  rw [hpack]
  have hzero : sc.geometry = sc.geometry.drop 0 := (List.drop_zero sc.geometry).symm
  have hlen :
      (resizePack sc.pack (totalPrim sc.geometry)
          (totalVerts sc.geometry)).prim_visibility.length =
        totalPrim sc.geometry := by
    simp [resizePack, length_resizeL]
  have hrun := runTasks_vis_block sc.objects sc.pack_all_data sc.geometry
    sc.geometry 0 (resizePack sc.pack (totalPrim sc.geometry) (totalVerts sc.geometry))
    hzero hlen gi G hgi (Nat.zero_le gi) (by rw [hMod]; rfl) hcopy k hk
  rw [hrun]
  congr 1
  rw [scanObjects_vis_of_instanced G hInst sc.objects 0 0 false, hAB]
  simp [Nat.zero_or]

theorem pack_blas_prim_type (geom : Geometry) (obj : Object) (p : PackedBVH)
    (pp : Object → PackedBVH → PPOut) :
    (pack_blas geom obj p pp).1.prim_type = (blasTypeIndex geom p).prim_type := rfl

theorem pack_blas_prim_index (geom : Geometry) (obj : Object) (p : PackedBVH)
    (pp : Object → PackedBVH → PPOut) :
    (pack_blas geom obj p pp).1.prim_index = (blasTypeIndex geom p).prim_index := rfl

theorem pack_blas_prim_object (geom : Geometry) (obj : Object) (p : PackedBVH)
    (pp : Object → PackedBVH → PPOut) :
    (pack_blas geom obj p pp).1.prim_object = (blasTypeIndex geom p).prim_object := rfl

theorem blasTypeIndex_meshlike (geom : Geometry) (p : PackedBVH) (n : Nat)
    (hd : geom.data = GeomData.mesh n ∨ geom.data = GeomData.volume n)
    (hn : 0 < n) :
    (blasTypeIndex geom p).prim_type =
      fillRange
        (fun _ =>
          if geom.useMotionBlur && geom.hasMotionAttr then PRIMITIVE_MOTION_TRIANGLE
          else PRIMITIVE_TRIANGLE)
        n (resizeL p.prim_type n 0) ∧
    (blasTypeIndex geom p).prim_index =
      fillRange (fun k => Int.ofNat k) n (resizeL p.prim_index n 0) ∧
    (blasTypeIndex geom p).prim_object = p.prim_object := by
  rcases hd with hd | hd <;> simp [blasTypeIndex, hd, hn]

theorem blasTypeIndex_hair (geom : Geometry) (p : PackedBVH) (curves : List Nat)
    (shapeRibbon : Bool) (hd : geom.data = GeomData.hair curves shapeRibbon)
    (hc : 0 < curves.length) :
    blasTypeIndex geom p =
      { p with
        prim_type := p.prim_type ++
          hairTypeSpec (hairBaseType geom.useMotionBlur geom.hasMotionAttr shapeRibbon)
            curves
        prim_index := p.prim_index ++ hairIndexFrom 0 curves
        prim_object := p.prim_object ++ List.replicate curves.sum 0 } := by
  have hb :
      blasTypeIndex geom p =
        blasHairCurves
          (hairBaseType geom.useMotionBlur geom.hasMotionAttr shapeRibbon) 0 curves p := by
    unfold blasTypeIndex
    rw [hd]
    simp [hc]
  rw [hb]
  exact blasHairCurves_spec _ curves 0 p

/-- C1: for a mesh or volume geometry with `N > 0` triangles, `pack_blas`
produces exactly `N` slots; every slot's `prim_type` is the uniform tag
`PRIMITIVE_TRIANGLE` when the motion-blur vertex attribute is absent, and
`PRIMITIVE_MOTION_TRIANGLE` when motion blur is enabled and the attribute is
present; and `prim_index[k] = k` for every `k < N`. -/
theorem claim_C1_mesh_volume_slots (geom : Geometry) (obj : Object) (p : PackedBVH)
    (pp : Object → PackedBVH → PPOut) (n : Nat)
    (hd : geom.data = GeomData.mesh n ∨ geom.data = GeomData.volume n)
    (hn : 0 < n) :
    ((pack_blas geom obj p pp).1.prim_type.length = n ∧
      (pack_blas geom obj p pp).1.prim_index.length = n) ∧
    (∀ k, k < n →
      (pack_blas geom obj p pp).1.prim_index.get? k = some (Int.ofNat k)) ∧
    (geom.hasMotionAttr = false →
      ∀ k, k < n →
        (pack_blas geom obj p pp).1.prim_type.get? k = some PRIMITIVE_TRIANGLE) ∧
    (geom.useMotionBlur = true → geom.hasMotionAttr = true →
      ∀ k, k < n →
        (pack_blas geom obj p pp).1.prim_type.get? k =
          some PRIMITIVE_MOTION_TRIANGLE) := by
  obtain ⟨ht, hi, -⟩ := blasTypeIndex_meshlike geom p n hd hn
  rw [pack_blas_prim_type, pack_blas_prim_index, ht, hi]
  refine ⟨⟨?_, ?_⟩, ?_, ?_, ?_⟩
  · rw [length_fillRange, length_resizeL]
  · rw [length_fillRange, length_resizeL]
  · intro k hk
    rw [fillRange_get?, if_pos ⟨hk, by rw [length_resizeL]; exact hk⟩]
  · intro hattr k hk
    rw [fillRange_get?, if_pos ⟨hk, by rw [length_resizeL]; exact hk⟩]
    simp [hattr]
  · intro hmb hattr k hk
    rw [fillRange_get?, if_pos ⟨hk, by rw [length_resizeL]; exact hk⟩]
    simp [hmb, hattr]

/-- C2: for a hair geometry with at least one curve, starting from the empty
bottom-level pack, `pack_blas` produces one slot per curve segment (the slot
count is the sum of the per-curve segment counts); each slot's `prim_index`
is the index of the curve owning the segment (not the segment index), each
slot's `prim_object` is 0, and each slot's `prim_type` is the ribbon/thick
and motion/non-motion base tag with the segment's local index packed in. -/
theorem claim_C2_hair_slots (geom : Geometry) (obj : Object) (p : PackedBVH)
    (pp : Object → PackedBVH → PPOut) (curves : List Nat) (shapeRibbon : Bool)
    (hd : geom.data = GeomData.hair curves shapeRibbon) (hc : 0 < curves.length)
    (h1 : p.prim_type = []) (h2 : p.prim_index = []) (h3 : p.prim_object = []) :
    (pack_blas geom obj p pp).1.prim_index.length = curves.sum ∧
    (pack_blas geom obj p pp).1.prim_index = hairIndexFrom 0 curves ∧
    (pack_blas geom obj p pp).1.prim_type =
      hairTypeSpec (hairBaseType geom.useMotionBlur geom.hasMotionAttr shapeRibbon)
        curves ∧
    (pack_blas geom obj p pp).1.prim_object = List.replicate curves.sum 0 := by
  have hb := blasTypeIndex_hair geom p curves shapeRibbon hd hc
  rw [pack_blas_prim_type, pack_blas_prim_index, pack_blas_prim_object, hb]
  simp [h1, h2, h3, hairIndexFrom_length]

/-- C8: during `pack_blas` the single owning object's visibility field is
zeroed before the shared primitive-packing step runs — formally, the result
of `pack_blas` depends on the collaborator only through its value at the
zero-visibility object — and after `pack_blas` returns, the object's
visibility equals its value before the call, whatever the collaborator
did. -/
theorem claim_C8_visibility_scoped (geom : Geometry) (obj : Object) (p : PackedBVH)
    (pp pp' : Object → PackedBVH → PPOut)
    (h : pp { obj with visibility := 0 } (blasTypeIndex geom p) =
      pp' { obj with visibility := 0 } (blasTypeIndex geom p)) :
    (pack_blas geom obj p pp).2.visibility = obj.visibility ∧
    pack_blas geom obj p pp = pack_blas geom obj p pp' := by
  constructor
  · rfl
  · simp only [pack_blas]
    rw [h]

/-- C9: when the external device build reports failure, `copy_to_device`
sets the error status string "Failed to build OptiX acceleration structure"
on the progress collaborator; being a total function it neither throws nor
terminates, and the packed representation is passed through unchanged so a
later build can be retried. -/
theorem claim_C9_device_failure (pr : Progress) (pack : PackedBVH) (b : Bool)
    (hb : b = false) :
    (copy_to_device pr b pack).1.error = true ∧
    (copy_to_device pr b pack).1.error_message =
      "Failed to build OptiX acceleration structure" ∧
    (copy_to_device pr b pack).2 = pack := by
  subst hb
  refine ⟨rfl, rfl, rfl⟩

/-- C5: when `pack_instance` copies a geometry's bottom-level pack (the
copy condition holds and the pack is nonempty), then for every source slot
`i`: the type tag is written unchanged; `prim_index` is the source value
plus the geometry's global primitive offset; curve-type slots get the
`prim_tri_index` sentinel (the `uint` value of `-1`) while non-curve slots
get the source value plus the scene vertex offset; `prim_object` is the
resolved object index and `prim_visibility` the merged visibility mask,
uniformly for the whole block; and the vertex data, when present, is
bulk-copied verbatim at the geometry's vertex offset. -/
theorem claim_C5_instance_merge (spack : PackedBVH) (g : Geometry) (off voff : Nat)
    (oi : Int) (ovis : Nat) (f vm : Bool)
    (hch : primsHaveChanged g f vm = true)
    (hne : g.bvhPack.prim_index ≠ [])
    (hlt : g.bvhPack.prim_type.length = g.bvhPack.prim_index.length)
    (hb1 : off + g.bvhPack.prim_index.length ≤ spack.prim_type.length)
    (hb2 : off + g.bvhPack.prim_index.length ≤ spack.prim_index.length)
    (hb3 : off + g.bvhPack.prim_index.length ≤ spack.prim_object.length)
    (hb4 : off + g.bvhPack.prim_index.length ≤ spack.prim_visibility.length)
    (hb5 : off + g.bvhPack.prim_index.length ≤ spack.prim_tri_index.length)
    (hbv : voff + g.bvhPack.prim_tri_verts.length ≤ spack.prim_tri_verts.length)
    (hwrap : ∀ i, i < g.bvhPack.prim_index.length →
      g.bvhPack.prim_tri_index.getD i 0 + voff < uintMod) :
    (∀ i, i < g.bvhPack.prim_index.length →
      (pack_instance spack g off voff oi ovis f vm).prim_type.get? (off + i) =
          g.bvhPack.prim_type.get? i ∧
        (pack_instance spack g off voff oi ovis f vm).prim_index.get? (off + i) =
          some (g.bvhPack.prim_index.getD i 0 + g.primOffset) ∧
        (g.bvhPack.prim_type.getD i 0 &&& PRIMITIVE_ALL_CURVE ≠ 0 →
          (pack_instance spack g off voff oi ovis f vm).prim_tri_index.get? (off + i) =
            some uintMinusOne) ∧
        (g.bvhPack.prim_type.getD i 0 &&& PRIMITIVE_ALL_CURVE = 0 →
          (pack_instance spack g off voff oi ovis f vm).prim_tri_index.get? (off + i) =
            some (g.bvhPack.prim_tri_index.getD i 0 + voff)) ∧
        (pack_instance spack g off voff oi ovis f vm).prim_object.get? (off + i) =
          some oi ∧
        (pack_instance spack g off voff oi ovis f vm).prim_visibility.get? (off + i) =
          some ovis) ∧
    (∀ k, k < g.bvhPack.prim_tri_verts.length →
      (pack_instance spack g off voff oi ovis f vm).prim_tri_verts.get? (voff + k) =
        g.bvhPack.prim_tri_verts.get? k) := by
  constructor
  · intro i hi
    refine ⟨?_, ?_, ?_, ?_, ?_, ?_⟩
    · rw [pack_instance_prim_type, if_pos ⟨hne, hch⟩,
        blit_get_inside _ _ _ (by omega) i (by simpa using hi),
        List.get?_map, List.get?_range hi,
        get?_eq_some_getD g.bvhPack.prim_type i 0 (by rw [hlt]; exact hi)]
      rfl
    · rw [pack_instance_prim_index, if_pos ⟨hne, hch⟩,
        blit_get_inside _ _ _ (by omega) i (by simpa using hi),
        List.get?_map, List.get?_range hi]
      rfl
    · intro hcurve
      rw [pack_instance_prim_tri_index, if_pos ⟨hne, hch⟩,
        blit_get_inside _ _ _ (by omega) i (by simpa using hi),
        List.get?_map, List.get?_range hi]
      simp only [Option.map_some']
      rw [if_pos hcurve]
    · intro hnocurve
      rw [pack_instance_prim_tri_index, if_pos ⟨hne, hch⟩,
        blit_get_inside _ _ _ (by omega) i (by simpa using hi),
        List.get?_map, List.get?_range hi]
      simp only [Option.map_some']
      rw [if_neg (not_not_intro hnocurve), Nat.mod_eq_of_lt (hwrap i hi)]
    · rw [pack_instance_prim_object, if_pos ⟨hne, hch⟩,
        blit_get_inside _ _ _ (by omega) i (by simpa using hi)]
      exact get?_replicate_of_lt oi _ i hi
    · rw [pack_instance_prim_visibility, if_pos ⟨hne, hch⟩,
        blit_get_inside _ _ _ (by omega) i (by simpa using hi)]
      exact get?_replicate_of_lt ovis _ i hi
  · intro k hk
    have hvne : g.bvhPack.prim_tri_verts ≠ [] :=
      List.ne_nil_of_length_pos (Nat.lt_of_le_of_lt (Nat.zero_le k) hk)
    rw [pack_instance_prim_tri_verts, if_pos hvne,
      blit_get_inside _ _ _ (by omega) k hk]

/-- C10 (amended): `pack_blas` does not clear the pack arrays first.  For a
hair geometry with at least one curve it appends exactly the total segment
count of new entries to `prim_type`, `prim_index` and `prim_object`, leaving
pre-existing entries unchanged, so calling it twice duplicates the segment
slots.  For a mesh or volume geometry with at least one triangle it resizes
`prim_type` and `prim_index` to exactly the triangle count, discarding any
prior length, but leaves `prim_object` untouched (the source resizes only
the type and index arrays in the mesh branch). -/
theorem claim_C10_amended (geom : Geometry) (obj : Object) (p : PackedBVH)
    (pp : Object → PackedBVH → PPOut) :
    (∀ curves shapeRibbon,
      geom.data = GeomData.hair curves shapeRibbon → 0 < curves.length →
        (pack_blas geom obj p pp).1.prim_type =
            p.prim_type ++
              hairTypeSpec
                (hairBaseType geom.useMotionBlur geom.hasMotionAttr shapeRibbon)
                curves ∧
          (pack_blas geom obj p pp).1.prim_index =
            p.prim_index ++ hairIndexFrom 0 curves ∧
          (pack_blas geom obj p pp).1.prim_object =
            p.prim_object ++ List.replicate curves.sum 0 ∧
          (pack_blas geom obj (pack_blas geom obj p pp).1 pp).1.prim_index =
            p.prim_index ++ hairIndexFrom 0 curves ++ hairIndexFrom 0 curves) ∧
    (∀ n, geom.data = GeomData.mesh n ∨ geom.data = GeomData.volume n → 0 < n →
      (pack_blas geom obj p pp).1.prim_type.length = n ∧
        (pack_blas geom obj p pp).1.prim_index.length = n ∧
        (pack_blas geom obj p pp).1.prim_object = p.prim_object) := by
  constructor
  · intro curves shapeRibbon hd hc
    have hb := blasTypeIndex_hair geom p curves shapeRibbon hd hc
    have hb2 := blasTypeIndex_hair geom (pack_blas geom obj p pp).1 curves
      shapeRibbon hd hc
    refine ⟨?_, ?_, ?_, ?_⟩
    · rw [pack_blas_prim_type, hb]
    · rw [pack_blas_prim_index, hb]
    · rw [pack_blas_prim_object, hb]
    · rw [pack_blas_prim_index, hb2, pack_blas_prim_index, hb]
  · intro n hd hn
    obtain ⟨ht, hi, ho⟩ := blasTypeIndex_meshlike geom p n hd hn
    refine ⟨?_, ?_, ?_⟩
    · rw [pack_blas_prim_type, ht, length_fillRange, length_resizeL]
    · rw [pack_blas_prim_index, hi, length_fillRange, length_resizeL]
    · rw [pack_blas_prim_object, ho]

/-- Concrete mesh geometry with two triangles and no motion blur. -/
def exC1Geom : Geometry :=
  ⟨0, GeomData.mesh 2, false, false, true, true, false, 0, PackedBVH.empty, 0⟩

/-- Concrete owning object. -/
def exC1Obj : Object := ⟨1, 1, false, false, 0, 0⟩

/-- Concrete primitive-packing collaborator. -/
def exC1PP : Object → PackedBVH → PPOut := fun _ _ => ⟨[], [], []⟩

theorem claim_C1_witness :
    (pack_blas exC1Geom exC1Obj PackedBVH.empty exC1PP).1.prim_index.get? 1 =
      some (Int.ofNat 1) :=
  (claim_C1_mesh_volume_slots exC1Geom exC1Obj PackedBVH.empty exC1PP 2
    (Or.inl rfl) (by decide)).2.1 1 (by decide)

/-- Concrete hair geometry with two curves of 2 and 1 segments. -/
def exC2Geom : Geometry :=
  ⟨0, GeomData.hair [2, 1] false, false, false, true, true, false, 0,
    PackedBVH.empty, 0⟩

/-- Concrete owning object. -/
def exC2Obj : Object := ⟨1, 1, false, false, 0, 0⟩

/-- Concrete primitive-packing collaborator. -/
def exC2PP : Object → PackedBVH → PPOut := fun _ _ => ⟨[], [], []⟩

theorem claim_C2_witness :
    (pack_blas exC2Geom exC2Obj PackedBVH.empty exC2PP).1.prim_index =
      hairIndexFrom 0 [2, 1] :=
  (claim_C2_hair_slots exC2Geom exC2Obj PackedBVH.empty exC2PP [2, 1] false rfl
    (by decide) rfl rfl rfl).2.1

/-- Concrete scene whose only geometry has an empty bottom-level pack. -/
def exC3Scene : Scene :=
  ⟨[⟨0, GeomData.mesh 0, false, false, false, true, false, 0, PackedBVH.empty, 0⟩],
    [], PackedBVH.empty, false⟩

theorem claim_C3_witness : pack_tlas exC3Scene = (exC3Scene, []) :=
  claim_C3_empty_scene exC3Scene (by decide)

/-- First geometry of the two-geometry partition example (one triangle). -/
def exC4G1 : Geometry :=
  ⟨0, GeomData.mesh 1, false, false, true, true, true, 0,
    ⟨[1], [0], [0], [0], [0], [⟨1⟩, ⟨2⟩, ⟨3⟩]⟩, 0⟩

/-- Second geometry of the partition example (two curve segments). -/
def exC4G2 : Geometry :=
  ⟨1, GeomData.hair [2] false, false, false, true, true, false, 1,
    ⟨[4, 4], [0, 0], [0, 0], [0, 0], [0, 0], []⟩, 0⟩

/-- Concrete two-geometry scene. -/
def exC4Scene : Scene :=
  ⟨[exC4G1, exC4G2], [⟨1, 1, false, false, 0, 0⟩, ⟨2, 2, false, false, 1, 1⟩],
    PackedBVH.empty, false⟩

theorem claim_C4_witness :
    offBefore exC4Scene.geometry 0 + szOf exC4G1 ≤ offBefore exC4Scene.geometry 1 ∧
    voffBefore exC4Scene.geometry 0 + vszOf exC4G1 ≤ voffBefore exC4Scene.geometry 1 :=
  (claim_C4_partition exC4Scene 0 1 exC4G1 rfl (by decide)).1

/-- Concrete geometry for the instance-merge example: a volume (so the copy
condition always holds) with one non-curve slot and three vertices. -/
def exC5Geom : Geometry :=
  ⟨0, GeomData.volume 1, false, false, true, true, false, 10,
    ⟨[PRIMITIVE_TRIANGLE], [5], [0], [0], [0], [⟨1⟩, ⟨2⟩, ⟨3⟩]⟩, 0⟩

/-- Concrete scene pack for the instance-merge example. -/
def exC5Pack : PackedBVH :=
  ⟨[0, 0], [0, 0], [0, 0], [0, 0], [0, 0], [⟨0⟩, ⟨0⟩, ⟨0⟩]⟩

theorem claim_C5_witness :
    (pack_instance exC5Pack exC5Geom 1 0 7 3 false false).prim_index.get? (1 + 0) =
      some (exC5Geom.bvhPack.prim_index.getD 0 0 + exC5Geom.primOffset) :=
  ((claim_C5_instance_merge exC5Pack exC5Geom 1 0 7 3 false false (by decide)
    (by decide) (by decide) (by decide) (by decide) (by decide) (by decide)
    (by decide) (by decide) (by decide)).1 0 (by decide)).2.1

/-- Concrete instanced, modified hair geometry for the visibility merge. -/
def exC6G : Geometry :=
  ⟨0, GeomData.hair [1] false, false, false, true, true, false, 0,
    ⟨[4], [0], [0], [0], [0], []⟩, 0⟩

/-- First referencing object, tracing visibility 1. -/
def exC6A : Object := ⟨1, 1, false, false, 0, 0⟩

/-- Second referencing object, tracing visibility 2. -/
def exC6B : Object := ⟨2, 2, false, false, 1, 0⟩

/-- Concrete one-geometry, two-object scene. -/
def exC6Scene : Scene := ⟨[exC6G], [exC6A, exC6B], PackedBVH.empty, false⟩

theorem claim_C6_witness :
    (pack_tlas exC6Scene).1.pack.prim_visibility.get?
        (offBefore exC6Scene.geometry 0 + 0) =
      some (exC6A.visibilityForTracing ||| exC6B.visibilityForTracing) :=
  claim_C6_visibility_merge exC6Scene 0 exC6G exC6A exC6B rfl rfl rfl
    (Or.inl rfl) (by decide) 0 (by decide)

/-- Concrete unmodified geometry whose previous bottom-level pack has one
slot and no vertices. -/
def exC7G : Geometry :=
  ⟨0, GeomData.mesh 1, false, false, false, true, false, 0,
    ⟨[1], [0], [0], [0], [0], []⟩, 0⟩

/-- Concrete scene whose pack already has the totals' sizes. -/
def exC7Scene : Scene :=
  ⟨[exC7G], [⟨1, 1, false, false, 0, 0⟩], ⟨[3], [4], [5], [6], [7], []⟩, false⟩

theorem claim_C7_witness :
    (pack_tlas exC7Scene).1.pack = exC7Scene.pack ∧ (pack_tlas exC7Scene).2 = [] :=
  claim_C7_idempotent exC7Scene (by decide) rfl (by decide) rfl rfl rfl rfl rfl rfl

/-- Concrete hair geometry for the scoped-visibility example. -/
def exC8Geom : Geometry :=
  ⟨0, GeomData.hair [2] false, false, false, true, true, false, 0,
    PackedBVH.empty, 0⟩

/-- Concrete owning object with nonzero visibility. -/
def exC8Obj : Object := ⟨13, 13, false, false, 0, 0⟩

/-- Concrete primitive-packing collaborator. -/
def exC8PP : Object → PackedBVH → PPOut := fun ob _ => ⟨[], [], [ob.visibility]⟩

theorem claim_C8_witness :
    (pack_blas exC8Geom exC8Obj PackedBVH.empty exC8PP).2.visibility =
      exC8Obj.visibility ∧
    pack_blas exC8Geom exC8Obj PackedBVH.empty exC8PP =
      pack_blas exC8Geom exC8Obj PackedBVH.empty exC8PP :=
  claim_C8_visibility_scoped exC8Geom exC8Obj PackedBVH.empty exC8PP exC8PP rfl

/-- Concrete progress collaborator in its initial state. -/
def exC9Pr : Progress := ⟨"", "", false, ""⟩

theorem claim_C9_witness :
    (copy_to_device exC9Pr false PackedBVH.empty).1.error = true ∧
    (copy_to_device exC9Pr false PackedBVH.empty).1.error_message =
      "Failed to build OptiX acceleration structure" ∧
    (copy_to_device exC9Pr false PackedBVH.empty).2 = PackedBVH.empty :=
  claim_C9_device_failure exC9Pr PackedBVH.empty false rfl

/-- Concrete mesh geometry with one triangle. -/
def exC10MGeom : Geometry :=
  ⟨0, GeomData.mesh 1, false, false, true, true, true, 0, PackedBVH.empty, 0⟩

/-- Concrete mesh geometry with zero triangles. -/
def exC10ZGeom : Geometry :=
  ⟨0, GeomData.mesh 0, false, false, true, true, true, 0, PackedBVH.empty, 0⟩

/-- Concrete hair geometry with one curve of three segments. -/
def exC10HGeom : Geometry :=
  ⟨0, GeomData.hair [3] false, false, false, true, true, false, 0,
    PackedBVH.empty, 0⟩

/-- Concrete owning object. -/
def exC10Obj : Object := ⟨1, 1, false, false, 0, 0⟩

/-- A bottom-level pack that already holds two entries per array. -/
def exC10Pack : PackedBVH := ⟨[9, 9], [9, 9], [7, 7], [], [], []⟩

/-- Concrete primitive-packing collaborator. -/
def exC10PP : Object → PackedBVH → PPOut := fun _ _ => ⟨[], [], []⟩

theorem claim_C10_counterexample :
    (pack_blas exC10MGeom exC10Obj exC10Pack exC10PP).1.prim_object.length ≠ 1 ∧
    (pack_blas exC10ZGeom exC10Obj exC10Pack exC10PP).1.prim_type.length ≠ 0 := by
  decide

theorem claim_C10_witness :
    (pack_blas exC10HGeom exC10Obj exC10Pack exC10PP).1.prim_index =
      exC10Pack.prim_index ++ hairIndexFrom 0 [3] ∧
    (pack_blas exC10MGeom exC10Obj exC10Pack exC10PP).1.prim_object =
      exC10Pack.prim_object :=
  ⟨((claim_C10_amended exC10HGeom exC10Obj exC10Pack exC10PP).1 [3] false rfl
      (by decide)).2.1,
    ((claim_C10_amended exC10MGeom exC10Obj exC10Pack exC10PP).2 1 (Or.inl rfl)
      (by decide)).2.2⟩

end BvhOptix
